import Mathlib

/-!
Verification development for the tool-calling data-analysis agent
(`main.py`, `tools/extract_table.py`, `app/pipeline.py`, `app/settings.py`).

The Python sources are shallowly embedded as executable Lean definitions:
pure logic is translated directly; effectful collaborators (the chat model,
the browser, the filesystem, the subprocess) become explicit inputs
(a trace of model turns, a tool environment record, a process-result
function).  Standard-library calls (`json.loads`, `json.dumps`, `str.strip`,
`BeautifulSoup`) are modelled by Lean functions that follow their documented
behavior; modelling choices are recorded in the doc comments.
-/

namespace TdsAgent

/-! ## Python string stripping

`str.strip()` with no arguments removes the Python whitespace characters
space, tab, newline, carriage return, vertical tab and form feed from both
ends of the string. -/

/-- Characters removed by Python `str.strip()`. -/
def pyWs (c : Char) : Bool :=
  c = ' ' || c = '\t' || c = '\n' || c = '\r' || c = '\x0b' || c = '\x0c'

/-- Model of Python `str.strip()` (no arguments): drop whitespace from both ends. -/
def pyStrip (s : String) : String :=
  ⟨((s.data.dropWhile pyWs).reverse.dropWhile pyWs).reverse⟩

/-! ## JSON values

Model of the JSON values handled by Python's `json` module.  Numbers are kept
as exact decimals `m * 10 ^ e10` (Python would produce an `int` for integer
literals and a `float` otherwise; float rounding is not modelled, the claims
only inspect the shape of parsed values).  Objects are ordered key/value
lists (Python produces a `dict`; duplicate keys, which Python resolves
last-wins, are retained in order — no claim depends on duplicate keys). -/

inductive Json where
  | null
  | bool (b : Bool)
  | num (m : Int) (e10 : Int)
  | str (s : String)
  | arr (elems : List Json)
  | obj (members : List (String × Json))

/-! ## Model of `json.loads`

A fuel-indexed recursive-descent parser following RFC 8259 as implemented by
Python's `json.loads` in its default strict mode: JSON whitespace is space,
tab, newline, carriage return; strings are double quoted with the standard
escapes and `\uXXXX` (surrogate pairs combined; a lone surrogate, which
Python would keep as an unpaired surrogate code unit, is rejected here since
Lean characters are scalar values — no claim involves lone surrogates); raw
control characters in strings are rejected; numbers follow the JSON grammar
(no leading zeros, fraction and exponent each need at least one digit);
trailing non-whitespace input is rejected. -/

/-- JSON whitespace accepted by `json.loads` between tokens. -/
def jsonWs (c : Char) : Bool :=
  c = ' ' || c = '\t' || c = '\n' || c = '\r'

/-- Drop leading JSON whitespace. -/
def skipWs (cs : List Char) : List Char := cs.dropWhile jsonWs

/-- Value of a hexadecimal digit character. -/
def hexVal (c : Char) : Option Nat :=
  if '0' ≤ c && c ≤ '9' then some (c.toNat - 48)
  else if 'a' ≤ c && c ≤ 'f' then some (c.toNat - 87)
  else if 'A' ≤ c && c ≤ 'F' then some (c.toNat - 55)
  else none

/-- Parse the body of a JSON string literal (the opening quote already
consumed), accumulating decoded characters in `acc`; returns the decoded
content and the input after the closing quote.  `fuel` bounds the number of
parsing steps; every step consumes at least one input character, so any fuel
exceeding the input length is equivalent. -/
def parseStrAux : Nat → List Char → List Char → Option (List Char × List Char)
  | 0, _, _ => none
  | _ + 1, [], _ => none
  | f + 1, c :: rest, acc =>
    if c = '"' then some (acc, rest)
    else if c = '\\' then
      match rest with
      | [] => none
      | e :: rest2 =>
        if e = 'u' then
          match rest2 with
          | a :: b :: c2 :: d :: rest3 =>
            match hexVal a, hexVal b, hexVal c2, hexVal d with
            | some ha, some hb, some hc, some hd =>
              let v := ((ha * 16 + hb) * 16 + hc) * 16 + hd
              if v < 0xd800 || 0xe000 ≤ v then parseStrAux f rest3 (acc ++ [Char.ofNat v])
              else if v < 0xdc00 then
                match rest3 with
                | '\\' :: 'u' :: a2 :: b2 :: c3 :: d2 :: rest4 =>
                  match hexVal a2, hexVal b2, hexVal c3, hexVal d2 with
                  | some ha2, some hb2, some hc2, some hd2 =>
                    let w := ((ha2 * 16 + hb2) * 16 + hc2) * 16 + hd2
                    if 0xdc00 ≤ w && w < 0xe000 then
                      parseStrAux f rest4
                        (acc ++ [Char.ofNat (0x10000 + (v - 0xd800) * 0x400 + (w - 0xdc00))])
                    else none
                  | _, _, _, _ => none
                | _ => none
              else none
            | _, _, _, _ => none
          | _ => none
        else if e = '"' then parseStrAux f rest2 (acc ++ ['"'])
        else if e = '\\' then parseStrAux f rest2 (acc ++ ['\\'])
        else if e = '/' then parseStrAux f rest2 (acc ++ ['/'])
        else if e = 'b' then parseStrAux f rest2 (acc ++ ['\x08'])
        else if e = 'f' then parseStrAux f rest2 (acc ++ ['\x0c'])
        else if e = 'n' then parseStrAux f rest2 (acc ++ ['\n'])
        else if e = 'r' then parseStrAux f rest2 (acc ++ ['\r'])
        else if e = 't' then parseStrAux f rest2 (acc ++ ['\t'])
        else none
    else if c.toNat < 32 then none
    else parseStrAux f rest (acc ++ [c])

/-- Numeric value of a nonempty digit run. -/
def digitsToNat (ds : List Char) : Nat :=
  ds.foldl (fun n c => n * 10 + (c.toNat - 48)) 0

/-- Parse the exponent digits after `e`/`E`, with optional sign. -/
def parseExpDigits (cs : List Char) : Option (Int × List Char) :=
  let (sgn, cs1) : Bool × List Char :=
    match cs with
    | '+' :: r => (false, r)
    | '-' :: r => (true, r)
    | _ => (false, cs)
  let (ds, r) := cs1.span (·.isDigit)
  if ds = [] then none
  else some (if sgn then -(digitsToNat ds : Int) else (digitsToNat ds : Int), r)

/-- Parse a JSON number (grammar of RFC 8259: optional minus, integer part
without leading zeros, optional fraction, optional exponent) into its exact
decimal value `(mantissa, exponent of 10)`. -/
def parseNumber (cs : List Char) : Option ((Int × Int) × List Char) :=
  let (neg, cs1) : Bool × List Char :=
    match cs with
    | '-' :: r => (true, r)
    | _ => (false, cs)
  let (ipart, r1) := cs1.span (·.isDigit)
  if ipart = [] then none
  else if 1 < ipart.length && ipart.head? = some '0' then none
  else
    let step2 : Option (List Char × List Char) :=
      match r1 with
      | '.' :: rr =>
        let (fd, r2) := rr.span (·.isDigit)
        if fd = [] then none else some (fd, r2)
      | _ => some ([], r1)
    match step2 with
    | none => none
    | some (fd, r2) =>
      let step3 : Option (Int × List Char) :=
        match r2 with
        | 'e' :: rr => parseExpDigits rr
        | 'E' :: rr => parseExpDigits rr
        | _ => some (0, r2)
      match step3 with
      | none => none
      | some (ex, r3) =>
        let mag : Nat := digitsToNat (ipart ++ fd)
        let m : Int := if neg then -(mag : Int) else (mag : Int)
        some ((m, ex - (fd.length : Int)), r3)

/-- Parse the elements of a nonempty JSON array (opening bracket and any
leading whitespace consumed); `pv` parses one value. -/
def parseArrAux (pv : List Char → Option (Json × List Char)) :
    Nat → List Char → Option (List Json × List Char)
  | 0, _ => none
  | g + 1, cs =>
    match pv cs with
    | none => none
    | some (j, r) =>
      match skipWs r with
      | ',' :: r2 => (parseArrAux pv g r2).map (fun p => (j :: p.1, p.2))
      | ']' :: r2 => some ([j], r2)
      | _ => none

/-- Parse the members of a nonempty JSON object (opening brace consumed);
`pv` parses one value. -/
def parseObjAux (pv : List Char → Option (Json × List Char)) :
    Nat → List Char → Option (List (String × Json) × List Char)
  | 0, _ => none
  | g + 1, cs =>
    match skipWs cs with
    | '"' :: r =>
      match parseStrAux (r.length + 1) r [] with
      | none => none
      | some (k, r1) =>
        match skipWs r1 with
        | ':' :: r2 =>
          match pv r2 with
          | none => none
          | some (v, r3) =>
            match skipWs r3 with
            | ',' :: r4 => (parseObjAux pv g r4).map (fun p => ((⟨k⟩, v) :: p.1, p.2))
            | '\x7d' :: r4 => some ([(⟨k⟩, v)], r4)
            | _ => none
        | _ => none
    | _ => none

/-- Parse one JSON value, skipping leading whitespace; `fuel` bounds the
nesting depth (any fuel larger than the input length suffices). -/
def parseVal : Nat → List Char → Option (Json × List Char)
  | 0, _ => none
  | f + 1, cs =>
    match skipWs cs with
    | 'n' :: 'u' :: 'l' :: 'l' :: r => some (.null, r)
    | 't' :: 'r' :: 'u' :: 'e' :: r => some (.bool true, r)
    | 'f' :: 'a' :: 'l' :: 's' :: 'e' :: r => some (.bool false, r)
    | '"' :: r => (parseStrAux (r.length + 1) r []).map (fun p => (.str ⟨p.1⟩, p.2))
    | '[' :: r =>
      match skipWs r with
      | ']' :: r2 => some (.arr [], r2)
      | _ => (parseArrAux (parseVal f) (r.length + 1) r).map (fun p => (.arr p.1, p.2))
    | '\x7b' :: r =>
      match skipWs r with
      | '\x7d' :: r2 => some (.obj [], r2)
      | _ => (parseObjAux (parseVal f) (r.length + 1) r).map (fun p => (.obj p.1, p.2))
    | c :: r =>
      if c = '-' || c.isDigit then
        (parseNumber (c :: r)).map (fun p => (.num p.1.1 p.1.2, p.2))
      else none
    | [] => none

/-- Model of `json.loads`: parse a complete JSON document, rejecting
trailing non-whitespace input. -/
def Json.parse (s : String) : Option Json :=
  match parseVal (s.length + 1) s.data with
  | some (j, r) => if skipWs r = [] then some j else none
  | none => none

/-! ## Model of `json.dumps`

Serializer following Python `json.dumps` with its default separators
(`", "` between items, `": "` after keys).  Strings escape the quote,
backslash and control characters; other characters are emitted directly
(Python's default `ensure_ascii=True` would `\uXXXX`-escape non-ASCII
characters instead — the parsed value is identical, and no claim inspects
the escaping of non-ASCII output).  Integer numbers print exactly as Python
does; non-integer numbers print in exponent form (Python would print a float
repr; no claim serializes a non-integer). -/

/-- Lowercase hexadecimal digit character. -/
def hexDigitChar (n : Nat) : Char :=
  if n < 10 then Char.ofNat (48 + n) else Char.ofNat (87 + n)

/-- Escape one character as `json.dumps` does inside a string literal. -/
def escChar (c : Char) : List Char :=
  if c = '"' then ['\\', '"']
  else if c = '\\' then ['\\', '\\']
  else if c = '\n' then ['\\', 'n']
  else if c = '\r' then ['\\', 'r']
  else if c = '\t' then ['\\', 't']
  else if c = '\x08' then ['\\', 'b']
  else if c = '\x0c' then ['\\', 'f']
  else if c.toNat < 32 then
    ['\\', 'u', '0', '0', hexDigitChar (c.toNat / 16), hexDigitChar (c.toNat % 16)]
  else [c]

/-- Escape a character list. -/
def escList : List Char → List Char
  | [] => []
  | c :: cs => escChar c ++ escList cs

/-- A serialized JSON string literal. -/
def strLitChars (s : String) : List Char := '"' :: (escList s.data ++ ['"'])

/-- Decimal digits of an integer, as printed by Python. -/
def intChars (i : Int) : List Char := (toString i).data

/-- Serialized form of the exact decimal `m * 10 ^ e10`. -/
def numChars (m : Int) (e10 : Int) : List Char :=
  if e10 = 0 then intChars m else intChars m ++ 'e' :: intChars e10

mutual

/-- Serialize a JSON value (model of `json.dumps`). -/
def dumpsChars : Json → List Char
  | .null => "null".data
  | .bool true => "true".data
  | .bool false => "false".data
  | .num m e => numChars m e
  | .str s => strLitChars s
  | .arr xs => '[' :: (dumpsArr xs ++ [']'])
  | .obj kvs => '\x7b' :: (dumpsObj kvs ++ ['\x7d'])

/-- Serialize array elements, separated by `", "`. -/
def dumpsArr : List Json → List Char
  | [] => []
  | [j] => dumpsChars j
  | j :: rest => dumpsChars j ++ ',' :: ' ' :: dumpsArr rest

/-- Serialize object members, `": "` after keys, `", "` between members. -/
def dumpsObj : List (String × Json) → List Char
  | [] => []
  | [(k, v)] => strLitChars k ++ ':' :: ' ' :: dumpsChars v
  | (k, v) :: rest => strLitChars k ++ ':' :: ' ' :: dumpsChars v ++ ',' :: ' ' :: dumpsObj rest

end

/-- Model of `json.dumps` on a JSON value. -/
def Json.dumps (j : Json) : String := ⟨dumpsChars j⟩

/-! ## HTML documents and the selector extractor

`get_relevant_data` (defined identically in `main.py` and in
`tools/extract_table.py`) reads a saved HTML file, parses it with
BeautifulSoup and either extracts the text of the elements matching a CSS
selector or the whole-page text.  The parsed document is modelled as a tree
of elements (with their `id` and `class` attributes, the only ones CSS
matching needs here) and text nodes; the HTML parser itself is a library
collaborator and enters only as an abstract `String → Node` function where a
claim ranges over file contents. -/

/-- A parsed HTML document node: a text fragment, or an element with its
tag name, optional `id` attribute, `class` list and children.  Tag names
are as `html.parser` produces them — lowercased — which is what the
modelled type selectors compare against. -/
inductive Node where
  | text (s : String)
  | elem (tag : String) (idAttr : Option String) (classes : List String) (children : List Node)

mutual

/-- All text fragments of a node, in document order (BeautifulSoup
`strings`). -/
def nodeStrings : Node → List String
  | .text s => [s]
  | .elem _ _ _ children => nodesStrings children

/-- All text fragments of a node list, in document order. -/
def nodesStrings : List Node → List String
  | [] => []
  | n :: ns => nodeStrings n ++ nodesStrings ns

end

/-- Model of BeautifulSoup `get_text(separator=sep, strip=True)`: every text
fragment is stripped, fragments that become empty are dropped, and the rest
are joined with `sep`. -/
def getTextStrip (sep : String) (n : Node) : String :=
  String.intercalate sep (((nodeStrings n).map pyStrip).filter (fun s => s != ""))

/-! ### CSS selectors

`soup.select` delegates to the soupsieve CSS engine: a syntactically invalid
selector raises `SelectorSyntaxError` (a `SyntaxError`), while a valid
selector returns the matching elements in document order.  Rather than
reproduce soupsieve's full grammar, the model classifies a selector three
ways, each direction sound:

* `ok`: a subset on which acceptance and matching semantics coincide with
  soupsieve — compounds of a lowercase type selector or `*` plus `#id` and
  `.class` qualifiers whose identifiers start with an ASCII letter or
  underscore (CSS identifiers cannot start with a digit), combined by
  descendant whitespace;
* `invalid`: selectors soupsieve is guaranteed to reject — the empty or
  whitespace-only selector, and quote-free selectors with unbalanced
  square brackets or parentheses, such as `"["`;
* `unmodelled`: everything else (combinators, selector lists, attribute
  and pseudo-class selectors, uppercase or non-ASCII identifiers, quoting,
  comments).  On this remainder the embedding takes no position: it is the
  documented boundary of the modelled grammar, and no theorem rests on it. -/

/-- One compound selector: optional tag constraint plus `#id`/`.class`
qualifiers. -/
structure Compound where
  tag : Option String
  ids : List String
  classes : List String

/-- Start character of a CSS identifier in the modelled subset: an ASCII
letter or underscore.  CSS identifiers cannot start with a digit; leading
hyphens, escapes and non-ASCII starts are valid CSS but fall outside the
subset (classified `unmodelled`, never accepted). -/
def isNameStart (c : Char) : Bool := c.isAlpha || c = '_'

/-- Continuation character of a CSS identifier in the modelled subset. -/
def isNameChar (c : Char) : Bool := c.isAlphanum || c = '-' || c = '_'

/-- Start character of a type selector in the modelled subset: a lowercase
letter, matching the lowercased tag names `html.parser` produces.  Uppercase
type selectors, which soupsieve matches case-insensitively, fall outside the
subset rather than being compared case-sensitively. -/
def isTagStart (c : Char) : Bool := c.isLower

/-- Continuation character of a type selector in the modelled subset. -/
def isTagChar (c : Char) : Bool := c.isLower || c.isDigit || c = '-' || c = '_'

/-- Take a CSS identifier (an id or class name). -/
def takeName (cs : List Char) : Option (String × List Char) :=
  match cs with
  | c :: _ =>
    if isNameStart c then
      let p := cs.span isNameChar
      some (⟨p.1⟩, p.2)
    else none
  | [] => none

/-- Take a type-selector name. -/
def takeTagName (cs : List Char) : Option (String × List Char) :=
  match cs with
  | c :: _ =>
    if isTagStart c then
      let p := cs.span isTagChar
      some (⟨p.1⟩, p.2)
    else none
  | [] => none

/-- Parse the `#id`/`.class` qualifiers of a compound selector; `fuel` is at
least the remaining length. -/
def parseCompAux : Nat → List Char → Compound → Option Compound
  | 0, cs, acc => if cs = [] then some acc else none
  | _ + 1, [], acc => some acc
  | f + 1, '#' :: cs, acc =>
    match takeName cs with
    | some (n, r) => parseCompAux f r ⟨acc.tag, acc.ids ++ [n], acc.classes⟩
    | none => none
  | f + 1, '.' :: cs, acc =>
    match takeName cs with
    | some (n, r) => parseCompAux f r ⟨acc.tag, acc.ids, acc.classes ++ [n]⟩
    | none => none
  | _ + 1, _ :: _, _ => none

/-- Parse one whitespace-free selector token into a compound selector. -/
def parseCompound (tok : List Char) : Option Compound :=
  match tok with
  | [] => none
  | '*' :: rest => parseCompAux (rest.length + 1) rest ⟨none, [], []⟩
  | '#' :: _ => parseCompAux (tok.length + 1) tok ⟨none, [], []⟩
  | '.' :: _ => parseCompAux (tok.length + 1) tok ⟨none, [], []⟩
  | _ :: _ =>
    match takeTagName tok with
    | some (n, r) => parseCompAux (r.length + 1) r ⟨some n, [], []⟩
    | none => none

/-- CSS whitespace separating descendant compounds: space, tab, newline,
carriage return and form feed (the vertical tab is Python whitespace but
not CSS whitespace). -/
def cssWs (c : Char) : Bool :=
  c = ' ' || c = '\t' || c = '\n' || c = '\r' || c = '\x0c'

/-- Split a character list on CSS-whitespace runs. -/
def splitWsAux : List Char → List Char → List (List Char)
  | [], cur => if cur = [] then [] else [cur.reverse]
  | c :: cs, cur =>
    if cssWs c then
      if cur = [] then splitWsAux cs [] else cur.reverse :: splitWsAux cs []
    else splitWsAux cs (c :: cur)

/-- CSS-whitespace-separated tokens of a character list. -/
def splitWsChars (cs : List Char) : List (List Char) := splitWsAux cs []

/-- Characters that put a selector outside the modelled subset wholesale:
quotes and backslash escapes change how brackets count, and `/` can open a
CSS comment, so bracket balancing is only meaningful in their absence. -/
def hasUnmodelledChar (cs : List Char) : Bool :=
  cs.any (fun c => c = '"' || c = '\x27' || c = '\\' || c = '/')

/-- Are square brackets and parentheses balanced?  In a quote-free,
escape-free selector an unbalanced bracket is a guaranteed syntax error for
the CSS engine. -/
def balAux : List Char → Nat → Nat → Bool
  | [], b, p => b == 0 && p == 0
  | c :: cs, b, p =>
    if c = '[' then balAux cs (b + 1) p
    else if c = ']' then
      match b with
      | 0 => false
      | b2 + 1 => balAux cs b2 p
    else if c = '(' then balAux cs b (p + 1)
    else if c = ')' then
      match p with
      | 0 => false
      | p2 + 1 => balAux cs b p2
    else balAux cs b p

/-- The model's three-way classification of a selector string. -/
inductive SelStatus where
  | ok (chain : List Compound)
  | invalid
  | unmodelled

/-- Classify a selector string: `ok` with its compiled descendant chain when
it lies in the modelled subset, `invalid` when soupsieve is guaranteed to
raise `SelectorSyntaxError` (empty or whitespace-only, or unbalanced
brackets without quoting), and `unmodelled` otherwise. -/
def compileSelector (s : String) : SelStatus :=
  if hasUnmodelledChar s.data then .unmodelled
  else if splitWsChars s.data = [] then .invalid
  else if !balAux s.data 0 0 then .invalid
  else
    match (splitWsChars s.data).mapM parseCompound with
    | some chain => .ok chain
    | none => .unmodelled

/-- Does a compound selector match an element with the given tag, `id` and
classes? -/
def matchComp (c : Compound) (tag : String) (idAttr : Option String)
    (classes : List String) : Bool :=
  (match c.tag with
   | none => true
   | some t => t == tag) &&
  c.ids.all (fun i => idAttr == some i) &&
  c.classes.all (fun cl => classes.contains cl)

/-- Can the compounds be matched, in order, against a subsequence of the
ancestor list (outermost first)? -/
def ancSubseq : List Compound → List (String × Option String × List String) → Bool
  | [], _ => true
  | _ :: _, [] => false
  | c :: cs, a :: as =>
    (matchComp c a.1 a.2.1 a.2.2 && ancSubseq cs as) || ancSubseq (c :: cs) as

/-- Does the descendant chain select an element with the given data and
ancestors? -/
def chainHits (chain : List Compound) (anc : List (String × Option String × List String))
    (tag : String) (idAttr : Option String) (classes : List String) : Bool :=
  match chain.getLast? with
  | none => false
  | some c => matchComp c tag idAttr classes && ancSubseq chain.dropLast anc

mutual

/-- Elements selected by a descendant chain within a node, in document
order; `anc` lists the ancestors seen so far, outermost first. -/
def selectNode (chain : List Compound) (anc : List (String × Option String × List String)) :
    Node → List Node
  | .text _ => []
  | .elem tag idAttr classes children =>
    (if chainHits chain anc tag idAttr classes then [Node.elem tag idAttr classes children]
     else []) ++ selectKids chain (anc ++ [(tag, idAttr, classes)]) children

/-- Elements selected by a descendant chain within a node list. -/
def selectKids (chain : List Compound) (anc : List (String × Option String × List String)) :
    List Node → List Node
  | [] => []
  | n :: ns => selectNode chain anc n ++ selectKids chain anc ns

end

/-- Model of `soup.select` with an already-compiled selector: matching
elements of the document, in document order. -/
def soupSelect (chain : List Compound) (doc : Node) : List Node := selectNode chain [] doc

/-- The value returned by `get_relevant_data`: either
`{"data": [...], "count": n, "selector": s}` when a selector was supplied,
or `{"data": text}` for the whole-page fallback — the constructor records
which keys are present. -/
inductive ExtractResult where
  | selected (data : List String) (count : Nat) (selector : String)
  | whole (data : String)
deriving DecidableEq

/-- Python truthiness of the optional selector string: `None` and the empty
string are falsy. -/
def optStrTruthy : Option String → Bool
  | none => false
  | some s => !(s == "")

/-- Embedding of `get_relevant_data(file_name, js_selector)` from `main.py`
(and its identical copy in `tools/extract_table.py`) on the parsed document:
if the selector is truthy, `soup.select` runs and the element texts, count
and selector are returned; an invalid selector makes the engine raise
`SelectorSyntaxError`, which propagates as `.error` since the function has
no handler; otherwise the whole-page text is returned under `data` alone.
A selector the model classifies `unmodelled` yields the marker error
`"SelectorOutsideModelledSubset"` — not a claim about the program, but the
explicit boundary of the embedded CSS grammar, a branch no theorem relies
on.  Reading the file is the caller-side effect; a missing file would raise
before this logic runs. -/
def get_relevant_data (doc : Node) (js_selector : Option String) :
    Except String ExtractResult :=
  if optStrTruthy js_selector then
    match compileSelector (js_selector.getD "") with
    | .ok chain =>
      let elements := soupSelect chain doc
      .ok (.selected (elements.map (getTextStrip "")) elements.length (js_selector.getD ""))
    | .invalid => .error "SelectorSyntaxError"
    | .unmodelled => .error "SelectorOutsideModelledSubset"
  else
    .ok (.whole (getTextStrip " " doc))

/-- `get_relevant_data` at the level of raw file contents, with the HTML
parser supplied as an abstract function (the library collaborator
`BeautifulSoup(html, "html.parser")`). -/
def get_relevant_data_file (parseHtml : String → Node) (content : String)
    (js_selector : Option String) : Except String ExtractResult :=
  get_relevant_data (parseHtml content) js_selector

/-! ## The code executor -/

/-- Result of `subprocess.run(..., capture_output=True, text=True)`. -/
structure CompletedProc where
  returncode : Int
  stdout : String
  stderr : String

/-- Embedding of `answer_questions(code)` from `main.py`: the code is written
to the scratch script and run as a subprocess (modelled by `run`, the
subprocess collaborator).  If the process exits nonzero and its stdout is
empty after stripping, a JSON error object with the captured stderr is
returned; otherwise stdout is returned as-is. -/
def answer_questions (run : String → CompletedProc) (code : String) : String :=
  let proc := run code
  if proc.returncode != 0 && pyStrip proc.stdout == "" then
    Json.dumps (.obj [("error", .str "code_failed"), ("stderr", .str proc.stderr)])
  else proc.stdout

/-! ## The orchestration loop

`run_agent_for_api` seeds the conversation, then loops: check the elapsed
time against the 110-second budget, issue a chat turn, and either dispatch
the requested tool calls (appending one tool message per call) or parse the
final text as the answer.  The chat model is a collaborator: it is supplied
as a trace of turns, each carrying the wall-clock time elapsed since loop
start when the turn's time check runs (`time.time() - start`) and the
assistant message `_chat` returned.  Tool bodies are collaborators too
(browser, filesystem, subprocess): a `ToolEnv` maps parsed arguments to
either a result or an uncaught Python exception. -/

/-- The raw `arguments` field of a tool call, as `_parse_args` receives it:
`None`, a mapping, a string, or any other value. -/
inductive RawArgs where
  | pyNone
  | pyDict (entries : List (String × Json))
  | pyStr (s : String)
  | pyOther

/-- Embedding of `_parse_args`: `None` and non-mapping, non-string values
become the empty dict; mappings pass through; strings are `json.loads`-ed
with a `JSONDecodeError` recovered as the empty dict (a string holding valid
non-object JSON passes through as its parsed value, exactly as in the
source). -/
def parse_args : RawArgs → Json
  | .pyNone => .obj []
  | .pyDict entries => .obj entries
  | .pyStr s =>
    match Json.parse s with
    | some j => j
    | none => .obj []
  | .pyOther => .obj []

/-- A tool-call request from the model: `tc["id"]`, `tc["function"]["name"]`
and `tc["function"].get("arguments")` (a missing key is `pyNone`). -/
structure ToolCall where
  id : String
  name : String
  arguments : RawArgs

/-- The assistant message `_chat` returns: `msg.get("content")` and
`msg.get("tool_calls") or []` (both a missing/`None` field and an empty list
give `[]`). -/
structure ModelReply where
  content : Option String
  tool_calls : List ToolCall

/-- One iteration's worth of collaborator input: the elapsed seconds when
the loop's time check runs, and the model reply the subsequent `_chat`
returns. -/
structure Turn where
  elapsed : ℚ
  reply : ModelReply

/-- A conversation message, tagged by role as in the Python message dicts
(the assistant tool-call message has `content: None`). -/
inductive Message where
  | system (content : String)
  | user (content : String)
  | assistant (tool_calls : List ToolCall)
  | tool (tool_call_id : String) (name : String) (content : String)

/-- The `tool_call_id` field of a message, when it is a tool result. -/
def Message.toolCallId : Message → Option String
  | .tool i _ _ => some i
  | _ => none

/-- Tool-body collaborators: `runScrape`, `runExtract` and `runExecute`
model awaiting `scrape_website(**args)`, `get_relevant_data(**args)` and
`answer_questions(**args)`; `.error` is an uncaught Python exception (a bad
keyword unpacking, a navigation timeout, a missing file, an invalid
selector), which `_call_tool` and `run_agent_for_api` do not catch. -/
structure ToolEnv where
  runScrape : Json → Except String Json
  runExtract : Json → Except String Json
  runExecute : Json → Except String String

/-- Embedding of `_call_tool`: dispatch on the tool name; scrape and extract
results are `json.dumps`-ed, the executor's string is returned directly, and
an unknown name yields a structured error payload instead of raising. -/
def call_tool (env : ToolEnv) (name : String) (args : Json) : Except String String :=
  if name == "scrape_website" then (env.runScrape args).map Json.dumps
  else if name == "get_relevant_data" then (env.runExtract args).map Json.dumps
  else if name == "answer_questions" then env.runExecute args
  else .ok (Json.dumps (.obj [("ok", .bool false),
    ("error", .str ("Unknown tool \x27" ++ name ++ "\x27"))]))

/-- The dispatch loop over one turn's tool calls: for each call in order,
parse its arguments, run the tool and append one tool message tagged with
the call's id; an exception aborts the loop there (messages appended so far
remain, as the Python list was mutated in place). -/
def dispatchCalls (env : ToolEnv) : List ToolCall → List Message → List Message × Option String
  | [], msgs => (msgs, none)
  | tc :: rest, msgs =>
    match call_tool env tc.name (parse_args tc.arguments) with
    | .error e => (msgs, some e)
    | .ok out => dispatchCalls env rest (msgs ++ [.tool tc.id tc.name out])

/-- How one run of the loop ends.  `success` is the returned list;
`timeoutExceeded` is `raise TimeoutError("Tool loop exceeded time budget")`;
`finalNotList` is `raise ValueError("Final content is JSON but not a list")`
(a plain `ValueError`, not caught by the `except json.JSONDecodeError`
handler); `finalNotJson` is the `ValueError` raised from that handler;
`toolException` is an exception escaping a tool body.  `modelUnavailable` is
an artifact of the finite turn trace: the real `_chat` would block or raise
instead. -/
inductive LoopOutcome where
  | success (answer : List Json)
  | timeoutExceeded
  | finalNotList
  | finalNotJson
  | toolException (msg : String)
  | modelUnavailable

/-- The inner time budget hard-coded in `run_agent_for_api`
(`time.time() - start > 110`). -/
def loopBudget : ℚ := 110

/-- `Settings.TOOL_LOOP_BUDGET` default from `app/settings.py` (the
documented value of the inner guard; the environment override is
configuration outside the core). -/
def TOOL_LOOP_BUDGET : Nat := 110

/-- `Settings.EXECUTOR_TIMEOUT` default from `app/settings.py`: the outer
timeout `execute_with_executor` imposes via `asyncio.wait_for`. -/
def EXECUTOR_TIMEOUT : Nat := 170

/-- Embedding of the `while True` loop of `run_agent_for_api`: check the
time budget, consume the next model reply, and either finish (parsing the
final text) or dispatch the tool calls and continue with the grown
conversation. -/
def runLoop (env : ToolEnv) : List Turn → List Message → LoopOutcome × List Message
  | [], msgs => (.modelUnavailable, msgs)
  | t :: rest, msgs =>
    if loopBudget < t.elapsed then (.timeoutExceeded, msgs)
    else if t.reply.tool_calls.isEmpty then
      match Json.parse (pyStrip (t.reply.content.getD "")) with
      | some (.arr xs) => (.success xs, msgs)
      | some _ => (.finalNotList, msgs)
      | none => (.finalNotJson, msgs)
    else
      match dispatchCalls env t.reply.tool_calls (msgs ++ [.assistant t.reply.tool_calls]) with
      | (msgs2, some e) => (.toolException e, msgs2)
      | (msgs2, none) => runLoop env rest msgs2

/-- The system instruction of `_system_prompt`. -/
def systemPromptText : String :=
  "You are an execution agent. Use tools to: (1) fetch the target page, (2) extract the necessary data, (3) when ready, generate complete Python code and call \x27answer_questions\x27 with it. The code MUST print ONLY the final JSON array required by the task, e.g., [1, \"Titanic\", 0.485782, \"data:image/png;base64,...\"]. Do not include explanations in the final assistant message—return only the JSON array."

/-- The seeded conversation of `run_agent_for_api`: the system instruction
and the user message combining the task and the plan. -/
def initMessages (task plan : String) : List Message :=
  [.system systemPromptText,
   .user (task ++ "\n\nPlan:\n" ++ plan ++ "\n\nUse the tools. When done, return ONLY the final JSON array.")]

/-- Embedding of `run_agent_for_api(task, plan)`: seed the conversation and
run the loop against the supplied collaborator trace. -/
def run_agent_for_api (env : ToolEnv) (task : String) (plan : String)
    (trace : List Turn) : LoopOutcome × List Message :=
  runLoop env trace (initMessages task plan)

/-! ## The tool registry -/

/-- Static metadata of one registered tool, as declared in the `tools` list
of `main.py`: name, description, parameter names (each of JSON type
`string`, their per-parameter descriptions elided), the required list,
`additionalProperties` and `strict`. -/
structure ToolFunctionDecl where
  name : String
  description : String
  paramNames : List String
  required : List String
  additionalProperties : Bool
  strict : Bool

/-- The registry shared with the model on every chat turn. -/
def tools : List ToolFunctionDecl :=
  [⟨"scrape_website", "Scrapes a website and saves the HTML to a file.",
    ["url", "output_file"], ["url", "output_file"], false, true⟩,
   ⟨"get_relevant_data", "Extracts relevant text from a saved HTML file using a CSS selector.",
    ["file_name", "js_selector"], ["file_name", "js_selector"], false, true⟩,
   ⟨"answer_questions", "Runs provided Python code that computes the final answers/plot and prints ONLY the JSON array.",
    ["code"], ["code"], false, true⟩]

/-! ## Auxiliary definitions for the verification -/

/-- The JSON error object `answer_questions` returns when the subprocess
fails silently. -/
def errObj (stderr : String) : Json :=
  .obj [("error", .str "code_failed"), ("stderr", .str stderr)]

/-- The malformed argument encodings: a string that is not valid JSON, or a
value that is neither a mapping nor a string. -/
def malformedArgs : RawArgs → Prop
  | .pyNone => True
  | .pyDict _ => False
  | .pyStr s => Json.parse s = none
  | .pyOther => True

/-- The tool message the dispatch loop appends for one successful call. -/
def toolResultMsg (env : ToolEnv) (tc : ToolCall) : Message :=
  .tool tc.id tc.name ((call_tool env tc.name (parse_args tc.arguments)).toOption.getD "")

/-- A concrete tool environment in which every tool succeeds, used to
instantiate the loop theorems. -/
def sampleEnv : ToolEnv :=
  ⟨fun _ => .ok (.obj []), fun _ => .ok (.obj []), fun _ => .ok "[]"⟩

/-- A small concrete document (`<html><body><p id="x"> hi </p></body></html>`),
used to instantiate the extraction theorems. -/
def sampleDoc : Node :=
  .elem "html" none []
    [.elem "body" none [] [.elem "p" (some "x") [] [.text " hi "]]]

/-! ## General lemmas about the loop -/

/-- One-step behavior of the loop on a final (tool-call-free) reply within
the time budget: the outcome is decided by `json.loads` on the stripped
content. -/
theorem runLoop_final_step (env : ToolEnv) (t : Turn) (rest : List Turn)
    (msgs : List Message)
    (hb : ¬ loopBudget < t.elapsed)
    (hnc : t.reply.tool_calls = []) :
    runLoop env (t :: rest) msgs =
      match Json.parse (pyStrip (t.reply.content.getD "")) with
      | some (.arr xs) => (.success xs, msgs)
      | some _ => (.finalNotList, msgs)
      | none => (.finalNotJson, msgs) := by
  simp only [runLoop, if_neg hb, hnc, List.isEmpty_nil, if_pos]

/-! ## C1: a final reply whose content parses as a JSON array is returned -/

/-- C1.  For every model reply that contains no tool calls and whose text
content (stripped, as the code does) parses as a JSON array, the loop —
from any conversation state, hence also `run_agent_for_api` itself —
terminates successfully and returns exactly the parsed array. -/
theorem C1_final_array_success (env : ToolEnv) (task plan : String) (t : Turn)
    (rest : List Turn) (msgs : List Message) (xs : List Json)
    (hb : ¬ loopBudget < t.elapsed)
    (hnc : t.reply.tool_calls = [])
    (hp : Json.parse (pyStrip (t.reply.content.getD "")) = some (.arr xs)) :
    runLoop env (t :: rest) msgs = (.success xs, msgs) ∧
    run_agent_for_api env task plan (t :: rest) = (.success xs, initMessages task plan) := by
  have h1 : ∀ ms, runLoop env (t :: rest) ms = (.success xs, ms) := by
    intro ms
    rw [runLoop_final_step env t rest ms hb hnc, hp]
  exact ⟨h1 msgs, h1 (initMessages task plan)⟩

/-- C1 witness: a final assistant message whose content is exactly
`[1, "Titanic", 0.48]` makes the loop return the three-element list
`1`, `"Titanic"`, `0.48` (the decimal `48·10⁻²`). -/
theorem C1_final_array_success_witness :
    runLoop sampleEnv [⟨9, ⟨some "[1, \"Titanic\", 0.48]", []⟩⟩] [] =
      (.success [.num 1 0, .str "Titanic", .num 48 (-2)], []) :=
  (C1_final_array_success sampleEnv "task" "plan" ⟨9, ⟨some "[1, \"Titanic\", 0.48]", []⟩⟩
    [] [] [.num 1 0, .str "Titanic", .num 48 (-2)] (by decide) rfl (by rfl)).1

/-! ## C2: exceeding the inner time budget fails the run with a timeout -/

/-- C2.  Whenever the elapsed time at the loop's check exceeds the inner
budget of 110 seconds, the loop raises the timeout error regardless of the
conversation state and of anything the model would still reply, and in
particular can no longer terminate successfully; the inner budget is smaller
than the outer caller-imposed timeout of 170 seconds
(`EXECUTOR_TIMEOUT` from the settings). -/
theorem C2_budget_exhausted_timeout (env : ToolEnv) (t : Turn) (rest : List Turn)
    (msgs : List Message)
    (h : loopBudget < t.elapsed) :
    runLoop env (t :: rest) msgs = (.timeoutExceeded, msgs) ∧
    (∀ xs msgs2, runLoop env (t :: rest) msgs ≠ (.success xs, msgs2)) ∧
    (TOOL_LOOP_BUDGET : ℚ) = loopBudget ∧ TOOL_LOOP_BUDGET < EXECUTOR_TIMEOUT := by
  have h1 : runLoop env (t :: rest) msgs = (.timeoutExceeded, msgs) := by
    simp only [runLoop, if_pos h]
  refine ⟨h1, ?_, by norm_num [TOOL_LOOP_BUDGET, loopBudget], by norm_num [TOOL_LOOP_BUDGET, EXECUTOR_TIMEOUT]⟩
  intro xs msgs2 hcon
  rw [h1] at hcon
  simp at hcon

/-- C2 witness: at 111 elapsed seconds the loop times out even though the
reply in hand is a perfectly valid final array. -/
theorem C2_budget_exhausted_timeout_witness :
    runLoop sampleEnv [⟨111, ⟨some "[1]", []⟩⟩] [] = (.timeoutExceeded, []) :=
  (C2_budget_exhausted_timeout sampleEnv ⟨111, ⟨some "[1]", []⟩⟩ [] [] (by decide)).1

/-! ## C6: valid JSON that is not an array fails with a validation error -/

/-- C6.  A final reply whose content is valid JSON but not an array makes
the loop fail with the `finalNotList` validation error — an outcome distinct
from the timeout, from the invalid-JSON error and from a tool crash — and
the loop returns no value. -/
theorem C6_final_json_not_list_fails (env : ToolEnv) (t : Turn) (rest : List Turn)
    (msgs : List Message) (j : Json)
    (hb : ¬ loopBudget < t.elapsed)
    (hnc : t.reply.tool_calls = [])
    (hp : Json.parse (pyStrip (t.reply.content.getD "")) = some j)
    (hnl : ∀ xs, j ≠ .arr xs) :
    runLoop env (t :: rest) msgs = (.finalNotList, msgs) ∧
    (∀ xs msgs2, runLoop env (t :: rest) msgs ≠ (.success xs, msgs2)) ∧
    LoopOutcome.finalNotList ≠ .timeoutExceeded ∧
    LoopOutcome.finalNotList ≠ .finalNotJson ∧
    (∀ e, LoopOutcome.finalNotList ≠ .toolException e) := by
  have h1 : runLoop env (t :: rest) msgs = (.finalNotList, msgs) := by
    rw [runLoop_final_step env t rest msgs hb hnc, hp]
    cases j with
    | arr xs => exact absurd rfl (hnl xs)
    | null => rfl
    | bool b => rfl
    | num m e => rfl
    | str s => rfl
    | obj kvs => rfl
  refine ⟨h1, ?_, by simp, by simp, by simp⟩
  intro xs msgs2 hcon
  rw [h1] at hcon
  simp at hcon

/-- C6 witness: the final content `{"a": 1}` (valid JSON, not an array)
yields the `finalNotList` validation error. -/
theorem C6_final_json_not_list_fails_witness :
    runLoop sampleEnv [⟨5, ⟨some "\x7b\"a\": 1\x7d", []⟩⟩] [] = (.finalNotList, []) :=
  (C6_final_json_not_list_fails sampleEnv ⟨5, ⟨some "\x7b\"a\": 1\x7d", []⟩⟩ [] []
    (.obj [("a", .num 1 0)]) (by decide) rfl (by rfl)
    (fun xs h => Json.noConfusion h)).1

/-! ## C3 (corrected): the selector extractor on invalid and non-matching
selectors

The claim asserts that an invalid selector, like a valid one matching zero
elements, yields count 0 and an empty sequence and never an error.  The
zero-match half holds, but `get_relevant_data` has no handler around
`soup.select`, and the soupsieve engine raises `SelectorSyntaxError` on a
syntactically invalid selector such as the unbalanced `"["`, so the error
propagates.  The amended theorem quantifies only over the engine model's
sound territory: zero-match behavior over selectors it accepts (all of
which soupsieve accepts with the same matching semantics) and the error at
a selector soupsieve is guaranteed to reject. -/

/-- C3 counterexample: on a readable document, the invalid selector `"["`
produces an uncaught selector syntax error, not the count-zero empty result
the claim requires. -/
theorem C3_invalid_selector_raises_cex :
    get_relevant_data sampleDoc (some "[") = .error "SelectorSyntaxError" ∧
    get_relevant_data sampleDoc (some "[") ≠ .ok (.selected [] 0 "[") := by
  refine ⟨rfl, ?_⟩
  intro h
  rw [show get_relevant_data sampleDoc (some "[") = .error "SelectorSyntaxError" from rfl] at h
  exact Except.noConfusion h

/-- C3 amended: for every readable document and every syntactically valid
selector that matches zero elements — formalized over the selectors the
engine model accepts, a sound subset of soupsieve's grammar —
`get_relevant_data` returns count 0 and an empty sequence without error;
a syntactically invalid selector such as the unbalanced `"["` raises an
uncaught `SelectorSyntaxError` instead of returning a result, on every
document. -/
theorem C3_selector_extractor_amended (doc : Node) (s : String) (chain : List Compound)
    (hc : compileSelector s = .ok chain)
    (hz : soupSelect chain doc = []) :
    get_relevant_data doc (some s) = .ok (.selected [] 0 s) ∧
    (∀ doc2 : Node, get_relevant_data doc2 (some "[") = .error "SelectorSyntaxError") := by
  constructor
  · have hs : s ≠ "" := by
      intro h
      subst h
      rw [show compileSelector "" = .invalid from rfl] at hc
      exact SelStatus.noConfusion hc
    have ht : optStrTruthy (some s) = true := by simp [optStrTruthy, hs]
    simp [get_relevant_data, ht, hc, hz]
  · intro doc2
    rfl

/-- C3 amended witness: the valid selector `"table"` matches nothing in the
sample document and yields count 0 with empty data. -/
theorem C3_selector_extractor_amended_witness :
    get_relevant_data sampleDoc (some "table") = .ok (.selected [] 0 "table") :=
  (C3_selector_extractor_amended sampleDoc "table" [⟨some "table", [], []⟩]
    (by rfl) (by rfl)).1

/-! ## C8: whole-page extraction is deterministic and idempotent -/

/-- C8.  Whole-page extraction (no selector) is a pure function of the file
content: two extractions of the same content give identical results — in
particular two successive extractions of an unchanged file — and the result
is the whole-page text. -/
theorem C8_whole_page_idempotent (parseHtml : String → Node) (c1 c2 : String)
    (h : c1 = c2) :
    get_relevant_data_file parseHtml c1 none = get_relevant_data_file parseHtml c2 none ∧
    get_relevant_data_file parseHtml c1 none =
      .ok (.whole (getTextStrip " " (parseHtml c1))) := by
  subst h
  exact ⟨rfl, rfl⟩

/-- C8 witness at a concrete parser and file content. -/
theorem C8_whole_page_idempotent_witness :
    get_relevant_data_file (fun _ => sampleDoc) "<p>hi</p>" none =
      get_relevant_data_file (fun _ => sampleDoc) "<p>hi</p>" none :=
  (C8_whole_page_idempotent (fun _ => sampleDoc) "<p>hi</p>" "<p>hi</p>" rfl).1

/-! ## C9: the empty selector behaves like no selector -/

/-- C9.  `get_relevant_data` with `js_selector` equal to the empty string
behaves exactly like the call with no selector (the guard is Python
truthiness, and `""` is falsy): the whole-page text is returned under the
`data` key alone — the `whole` shape, which carries no count and no selector
fields — even though `js_selector` sits in the required parameter list of
the `get_relevant_data` registry entry. -/
theorem C9_empty_selector_whole_page (doc : Node) :
    get_relevant_data doc (some "") = get_relevant_data doc none ∧
    get_relevant_data doc (some "") = .ok (.whole (getTextStrip " " doc)) ∧
    tools.map (fun td => (td.name, td.required)) =
      [("scrape_website", ["url", "output_file"]),
       ("get_relevant_data", ["file_name", "js_selector"]),
       ("answer_questions", ["code"])] :=
  ⟨rfl, rfl, rfl⟩

/-! ## C5: one tool-result message per tool-call request -/

/-- When every call of a turn succeeds, the dispatch loop appends exactly
the per-call tool messages, in call order, and reports no exception. -/
theorem dispatchCalls_all_ok (env : ToolEnv) (tcs : List ToolCall)
    (h : ∀ tc ∈ tcs, ∃ out, call_tool env tc.name (parse_args tc.arguments) = .ok out) :
    ∀ msgs, dispatchCalls env tcs msgs = (msgs ++ tcs.map (toolResultMsg env), none) := by
  induction tcs with
  | nil => intro msgs; simp [dispatchCalls]
  | cons tc rest ih =>
    intro msgs
    obtain ⟨out, hout⟩ := h tc (by simp)
    have hmsg : toolResultMsg env tc = .tool tc.id tc.name out := by
      simp [toolResultMsg, hout, Except.toOption]
    simp only [dispatchCalls, hout]
    rw [ih (fun x hx => h x (List.mem_cons_of_mem _ hx))]
    simp [hmsg]

/-- C5.  For a turn whose reply carries tool-call requests, all of which
dispatch successfully, the loop appends the assistant tool-call message and
then exactly one tool-result message per request — the count matches, the
identifiers match one-to-one, and the conversation order matches the call
order — before the next model turn is issued. -/
theorem C5_tool_results_one_to_one (env : ToolEnv) (t : Turn) (rest : List Turn)
    (msgs : List Message)
    (hb : ¬ loopBudget < t.elapsed)
    (hne : t.reply.tool_calls ≠ [])
    (hok : ∀ tc ∈ t.reply.tool_calls,
      ∃ out, call_tool env tc.name (parse_args tc.arguments) = .ok out) :
    runLoop env (t :: rest) msgs =
      runLoop env rest
        (msgs ++ [.assistant t.reply.tool_calls] ++ t.reply.tool_calls.map (toolResultMsg env)) ∧
    (t.reply.tool_calls.map (toolResultMsg env)).length = t.reply.tool_calls.length ∧
    (t.reply.tool_calls.map (toolResultMsg env)).map Message.toolCallId =
      t.reply.tool_calls.map (fun tc => some tc.id) := by
  refine ⟨?_, by simp, by simp [toolResultMsg, Message.toolCallId]⟩
  have hne2 : t.reply.tool_calls.isEmpty = false := by
    cases hcs : t.reply.tool_calls with
    | nil => exact absurd hcs hne
    | cons a l => rfl
  simp only [runLoop, if_neg hb, hne2, Bool.false_eq_true, if_false]
  rw [dispatchCalls_all_ok env t.reply.tool_calls hok]

/-- C5 witness: a two-call turn appends the assistant message and two tool
messages with matching identifiers, in order, then issues the next turn. -/
theorem C5_tool_results_one_to_one_witness :
    runLoop sampleEnv
      [⟨3, ⟨none, [⟨"call_1", "scrape_website", .pyDict []⟩,
                   ⟨"call_2", "answer_questions", .pyStr "\x7b\x7d"⟩]⟩⟩] [] =
      runLoop sampleEnv []
        ([] ++ [.assistant [⟨"call_1", "scrape_website", .pyDict []⟩,
                            ⟨"call_2", "answer_questions", .pyStr "\x7b\x7d"⟩]]
            ++ [⟨"call_1", "scrape_website", RawArgs.pyDict []⟩,
                ⟨"call_2", "answer_questions", RawArgs.pyStr "\x7b\x7d"⟩].map
                  (toolResultMsg sampleEnv)) :=
  (C5_tool_results_one_to_one sampleEnv
    ⟨3, ⟨none, [⟨"call_1", "scrape_website", .pyDict []⟩,
                ⟨"call_2", "answer_questions", .pyStr "\x7b\x7d"⟩]⟩⟩ [] []
    (by decide) (by simp)
    (by
      intro tc htc
      simp only [List.mem_cons, List.not_mem_nil, or_false] at htc
      rcases htc with rfl | rfl
      · exact ⟨_, rfl⟩
      · exact ⟨_, rfl⟩)).1

/-! ## C7: malformed tool-call arguments resolve to the empty argument set -/

/-- C7.  A tool-call request whose `arguments` field is malformed (a string
that is not valid JSON, or a value that is neither a mapping nor a string)
has its arguments resolved to the empty argument set rather than failing the
turn: the loop behaves exactly as if the tool had been called with `{}` —
appending the assistant and tool messages and continuing when the tool
succeeds, or surfacing the tool's own exception when it fails inside. -/
theorem C7_malformed_args_empty_set (env : ToolEnv) (tc : ToolCall) (t : Turn)
    (rest : List Turn) (msgs : List Message)
    (hm : malformedArgs tc.arguments)
    (ht : t.reply.tool_calls = [tc])
    (hb : ¬ loopBudget < t.elapsed) :
    parse_args tc.arguments = .obj [] ∧
    runLoop env (t :: rest) msgs =
      (match call_tool env tc.name (.obj []) with
       | .ok out => runLoop env rest (msgs ++ [.assistant [tc], .tool tc.id tc.name out])
       | .error err => (.toolException err, msgs ++ [.assistant [tc]])) := by
  have hpa : parse_args tc.arguments = .obj [] := by
    cases h : tc.arguments with
    | pyNone => rfl
    | pyDict entries => rw [h] at hm; exact hm.elim
    | pyStr s =>
      rw [h] at hm
      simp only [malformedArgs] at hm
      simp [parse_args, hm]
    | pyOther => rfl
  refine ⟨hpa, ?_⟩
  have hne2 : t.reply.tool_calls.isEmpty = false := by rw [ht]; rfl
  simp only [runLoop, if_neg hb, hne2, Bool.false_eq_true, if_false, ht]
  simp only [dispatchCalls, hpa]
  cases hc : call_tool env tc.name (.obj []) with
  | ok out => simp [dispatchCalls]
  | error err => rfl

/-- C7 witness: the argument string `"not json"` is not valid JSON and
resolves to the empty argument set. -/
theorem C7_malformed_args_empty_set_witness :
    parse_args (.pyStr "not json") = .obj [] :=
  (C7_malformed_args_empty_set sampleEnv ⟨"call_1", "answer_questions", .pyStr "not json"⟩
    ⟨2, ⟨none, [⟨"call_1", "answer_questions", .pyStr "not json"⟩]⟩⟩ [] []
    (by rfl) rfl (by decide)).1

theorem hexVal_hexDigitChar (n : Nat) (h : n < 16) : hexVal (hexDigitChar n) = some n := by
  interval_cases n <;> rfl

theorem parseStr_step_plain (f : Nat) (c : Char) (T acc : List Char)
    (h1 : c ≠ '"') (h2 : c ≠ '\\') (h3 : ¬ c.toNat < 32) :
    parseStrAux (f + 1) (c :: T) acc = parseStrAux f T (acc ++ [c]) := by
  simp only [parseStrAux, if_neg h1, if_neg h2, if_neg h3]

theorem parseStr_step_control (f : Nat) (c : Char) (T acc : List Char)
    (hc : c.toNat < 32) :
    parseStrAux (f + 1)
      ('\\' :: 'u' :: '0' :: '0' :: hexDigitChar (c.toNat / 16) :: hexDigitChar (c.toNat % 16) :: T)
      acc = parseStrAux f T (acc ++ [c]) := by
  have h1 : hexVal (hexDigitChar (c.toNat / 16)) = some (c.toNat / 16) :=
    hexVal_hexDigitChar _ (by omega)
  have h2 : hexVal (hexDigitChar (c.toNat % 16)) = some (c.toNat % 16) :=
    hexVal_hexDigitChar _ (by omega)
  have h3 : ((0 * 16 + 0) * 16 + c.toNat / 16) * 16 + c.toNat % 16 = c.toNat := by omega
  have h4 : c.toNat < 55296 := by omega
  simp only [parseStrAux, h1, h2]
  rw [if_neg (show ¬ ('\\' : Char) = '"' by decide), show hexVal '0' = some 0 from rfl]
  simp only [Nat.zero_mul, Nat.zero_add, Nat.mul_zero]
  have h5 : c.toNat / 16 * 16 + c.toNat % 16 = c.toNat := by omega
  rw [h5]
  simp [h4, Char.ofNat_toNat]

/-- Escaped content followed by the closing quote parses back to the
original content, for any fuel exceeding the content length. -/
theorem parseStr_escList (s : List Char) :
    ∀ f acc rest, s.length < f →
      parseStrAux f (escList s ++ '"' :: rest) acc = some (acc ++ s, rest) := by
  induction s with
  | nil =>
    intro f acc rest hf
    obtain ⟨f2, rfl⟩ : ∃ f2, f = f2 + 1 := ⟨f - 1, by omega⟩
    simp [escList, parseStrAux]
  | cons c cs ih =>
    intro f acc rest hf
    obtain ⟨f2, rfl⟩ : ∃ f2, f = f2 + 1 := ⟨f - 1, by omega⟩
    have hcs : cs.length < f2 := by simp at hf; omega
    rw [escList]
    by_cases hq : c = '"'
    · subst hq
      calc parseStrAux (f2 + 1) ((escChar '"' ++ escList cs) ++ '"' :: rest) acc
          = parseStrAux f2 (escList cs ++ '"' :: rest) (acc ++ ['"']) := rfl
        _ = some ((acc ++ ['"']) ++ cs, rest) := ih f2 _ rest hcs
        _ = some (acc ++ '"' :: cs, rest) := by simp
    · by_cases hbs : c = '\\'
      · subst hbs
        calc parseStrAux (f2 + 1) ((escChar '\\' ++ escList cs) ++ '"' :: rest) acc
            = parseStrAux f2 (escList cs ++ '"' :: rest) (acc ++ ['\\']) := rfl
          _ = some ((acc ++ ['\\']) ++ cs, rest) := ih f2 _ rest hcs
          _ = some (acc ++ '\\' :: cs, rest) := by simp
      · by_cases hn : c = '\n'
        · subst hn
          calc parseStrAux (f2 + 1) ((escChar '\n' ++ escList cs) ++ '"' :: rest) acc
              = parseStrAux f2 (escList cs ++ '"' :: rest) (acc ++ ['\n']) := rfl
            _ = some ((acc ++ ['\n']) ++ cs, rest) := ih f2 _ rest hcs
            _ = some (acc ++ '\n' :: cs, rest) := by simp
        · by_cases hr : c = '\r'
          · subst hr
            calc parseStrAux (f2 + 1) ((escChar '\r' ++ escList cs) ++ '"' :: rest) acc
                = parseStrAux f2 (escList cs ++ '"' :: rest) (acc ++ ['\r']) := rfl
              _ = some ((acc ++ ['\r']) ++ cs, rest) := ih f2 _ rest hcs
              _ = some (acc ++ '\r' :: cs, rest) := by simp
          · by_cases htb : c = '\t'
            · subst htb
              calc parseStrAux (f2 + 1) ((escChar '\t' ++ escList cs) ++ '"' :: rest) acc
                  = parseStrAux f2 (escList cs ++ '"' :: rest) (acc ++ ['\t']) := rfl
                _ = some ((acc ++ ['\t']) ++ cs, rest) := ih f2 _ rest hcs
                _ = some (acc ++ '\t' :: cs, rest) := by simp
            · by_cases hb8 : c = '\x08'
              · subst hb8
                calc parseStrAux (f2 + 1) ((escChar '\x08' ++ escList cs) ++ '"' :: rest) acc
                    = parseStrAux f2 (escList cs ++ '"' :: rest) (acc ++ ['\x08']) := rfl
                  _ = some ((acc ++ ['\x08']) ++ cs, rest) := ih f2 _ rest hcs
                  _ = some (acc ++ '\x08' :: cs, rest) := by simp
              · by_cases hf12 : c = '\x0c'
                · subst hf12
                  calc parseStrAux (f2 + 1) ((escChar '\x0c' ++ escList cs) ++ '"' :: rest) acc
                      = parseStrAux f2 (escList cs ++ '"' :: rest) (acc ++ ['\x0c']) := rfl
                    _ = some ((acc ++ ['\x0c']) ++ cs, rest) := ih f2 _ rest hcs
                    _ = some (acc ++ '\x0c' :: cs, rest) := by simp
                · by_cases hlt : c.toNat < 32
                  · have hec : escChar c =
                        ['\\', 'u', '0', '0', hexDigitChar (c.toNat / 16), hexDigitChar (c.toNat % 16)] := by
                      simp [escChar, hq, hbs, hn, hr, htb, hb8, hf12, hlt]
                    calc parseStrAux (f2 + 1) ((escChar c ++ escList cs) ++ '"' :: rest) acc
                        = parseStrAux (f2 + 1)
                            ('\\' :: 'u' :: '0' :: '0' :: hexDigitChar (c.toNat / 16) ::
                              hexDigitChar (c.toNat % 16) :: (escList cs ++ '"' :: rest)) acc := by
                          rw [hec]; rfl
                      _ = parseStrAux f2 (escList cs ++ '"' :: rest) (acc ++ [c]) :=
                          parseStr_step_control f2 c _ acc hlt
                      _ = some ((acc ++ [c]) ++ cs, rest) := ih f2 _ rest hcs
                      _ = some (acc ++ c :: cs, rest) := by simp
                  · have hec : escChar c = [c] := by
                      simp [escChar, hq, hbs, hn, hr, htb, hb8, hf12, hlt]
                    calc parseStrAux (f2 + 1) ((escChar c ++ escList cs) ++ '"' :: rest) acc
                        = parseStrAux (f2 + 1) (c :: (escList cs ++ '"' :: rest)) acc := by
                          rw [hec]; rfl
                      _ = parseStrAux f2 (escList cs ++ '"' :: rest) (acc ++ [c]) :=
                          parseStr_step_plain f2 c _ acc hq hbs hlt
                      _ = some ((acc ++ [c]) ++ cs, rest) := ih f2 _ rest hcs
                      _ = some (acc ++ c :: cs, rest) := by simp

/-- Escaping never shortens a string. -/
theorem le_escList_length (s : List Char) : s.length ≤ (escList s).length := by
  induction s with
  | nil => simp [escList]
  | cons c cs ih =>
    have h1 : 1 ≤ (escChar c).length := by
      unfold escChar
      split_ifs <;> simp
    simp only [escList, List.length_append, List.length_cons]
    omega

/-- Parsing the serialized members of the error object recovers them, for
any value-parser and member-loop fuels. -/
theorem objAux_err (f g : Nat) (X : List Char) (s : List Char)
    (hX : parseStrAux (X.length + 1) X [] = some (s, ['\x7d'])) :
    parseObjAux (parseVal (f + 1)) (g + 2)
      ("\"error\": \"code_failed\", \"stderr\": \"".data ++ X)
      = some ([("error", .str "code_failed"), ("stderr", .str ⟨s⟩)], []) := by
  have h1 : parseObjAux (parseVal (f + 1)) (g + 2)
      ("\"error\": \"code_failed\", \"stderr\": \"".data ++ X) =
      Option.map (fun p => (("error", Json.str "code_failed") :: p.1, p.2))
        (parseObjAux (parseVal (f + 1)) (g + 1) (" \"stderr\": \"".data ++ X)) := rfl
  have h2 : parseObjAux (parseVal (f + 1)) (g + 1) (" \"stderr\": \"".data ++ X) =
      match (parseStrAux (X.length + 1) X []).map (fun p => (Json.str ⟨p.1⟩, p.2)) with
      | none => none
      | some (v, r3) =>
        match skipWs r3 with
        | ',' :: r4 =>
          (parseObjAux (parseVal (f + 1)) g r4).map (fun p => (("stderr", v) :: p.1, p.2))
        | '\x7d' :: r4 => some ([("stderr", v)], r4)
        | _ => none
      := rfl
  rw [h1, h2, hX]
  rfl

/-- Round trip: the error object `answer_questions` builds serializes with
`json.dumps` to a string that `json.loads` parses back to the same object,
whatever the captured stderr text. -/
theorem parse_dumps_err (e : String) :
    Json.parse (Json.dumps (errObj e)) = some (errObj e) := by
  have hre : (escList e.data ++ ['"']) ++ ['\x7d'] = escList e.data ++ ['"', '\x7d'] := by
    simp
  have htop : Json.parse (Json.dumps (errObj e)) =
      match (parseObjAux (parseVal (dumpsChars (errObj e)).length)
              (("\"error\": \"code_failed\", \"stderr\": \"".data ++
                ((escList e.data ++ ['"']) ++ ['\x7d'])).length + 1)
              ("\"error\": \"code_failed\", \"stderr\": \"".data ++
                ((escList e.data ++ ['"']) ++ ['\x7d']))).map
            (fun p => (Json.obj p.1, p.2)) with
      | some (j, r) => if skipWs r = [] then some j else none
      | none => none := rfl
  have hplen : ("\"error\": \"code_failed\", \"stderr\": \"".data).length = 35 := rfl
  have hdata : dumpsChars (errObj e) =
      '\x7b' :: ("\"error\": \"code_failed\", \"stderr\": \"".data ++
        ((escList e.data ++ ['"']) ++ ['\x7d'])) := rfl
  have hlen1 : (dumpsChars (errObj e)).length = ((escList e.data).length + 37) + 1 := by
    rw [hdata]
    simp [List.length_append, hplen]
  have hlen2 : ("\"error\": \"code_failed\", \"stderr\": \"".data ++
      (escList e.data ++ ['"', '\x7d'])).length + 1 = ((escList e.data).length + 36) + 2 := by
    simp [List.length_append, hplen]
  have hX : parseStrAux ((escList e.data ++ ['"', '\x7d']).length + 1)
      (escList e.data ++ ['"', '\x7d']) [] = some (e.data, ['\x7d']) := by
    have hb : e.data.length < (escList e.data ++ ['"', '\x7d']).length + 1 := by
      have h := le_escList_length e.data
      rw [List.length_append]
      omega
    have := parseStr_escList e.data ((escList e.data ++ ['"', '\x7d']).length + 1) [] ['\x7d'] hb
    simpa using this
  rw [htop, hre, hlen1, hlen2, objAux_err _ _ _ _ hX]
  rfl

/-! ## C4 (corrected) and C10: the code executor's outcome -/

/-- C4 counterexample: with exit code 1 and the whitespace-only stdout
`" "`, standard output was produced yet `answer_questions` does not return
it as-is — it returns the JSON error object, because the code tests
`proc.stdout.strip()`, not `proc.stdout`. -/
theorem C4_whitespace_stdout_cex :
    answer_questions (fun _ => ⟨1, " ", "boom"⟩) "print(1)" ≠ " " ∧
    answer_questions (fun _ => ⟨1, " ", "boom"⟩) "print(1)" =
      "\x7b\"error\": \"code_failed\", \"stderr\": \"boom\"\x7d" := by
  exact ⟨by decide, by rfl⟩

/-- C4 amended.  If the subprocess exits nonzero and writes nothing but
whitespace to standard output, the returned value is the `json.dumps`
serialization of the error object carrying the captured stderr — a string
that parses as valid JSON to exactly that object; in every other case (any
non-whitespace standard output, or exit code zero) the standard output is
returned as-is. -/
theorem C4_executor_outcome_amended (run : String → CompletedProc) (code : String) :
    ((run code).returncode ≠ 0 → pyStrip (run code).stdout = "" →
      answer_questions run code = Json.dumps (errObj (run code).stderr) ∧
      Json.parse (answer_questions run code) = some (errObj (run code).stderr)) ∧
    (pyStrip (run code).stdout ≠ "" → answer_questions run code = (run code).stdout) ∧
    ((run code).returncode = 0 → answer_questions run code = (run code).stdout) := by
  refine ⟨?_, ?_, ?_⟩
  · intro h1 h2
    have hout : answer_questions run code = Json.dumps (errObj (run code).stderr) := by
      simp only [answer_questions, errObj]
      rw [if_pos (by simp [h1, h2])]
    exact ⟨hout, by rw [hout]; exact parse_dumps_err (run code).stderr⟩
  · intro h
    simp only [answer_questions]
    rw [if_neg (by simp [h])]
  · intro h
    simp only [answer_questions]
    rw [if_neg (by simp [h])]

/-- C4 amended witness: a silent failure (exit 2, empty stdout) returns a
string parsing to the error object with the captured stderr. -/
theorem C4_executor_outcome_amended_witness :
    Json.parse (answer_questions (fun _ => ⟨2, "", "oops"⟩) "x") = some (errObj "oops") :=
  ((C4_executor_outcome_amended (fun _ => ⟨2, "", "oops"⟩) "x").1 (by decide) (by rfl)).2

/-- C10.  `answer_questions` treats whitespace-only standard output of a
failing subprocess as no output, returning the structured JSON error
object; and whenever the subprocess exits zero its standard output is
returned verbatim — even when empty — never the error object branch. -/
theorem C10_stdout_whitespace_vs_exit_zero (run : String → CompletedProc) (code : String) :
    ((run code).returncode ≠ 0 → pyStrip (run code).stdout = "" →
      answer_questions run code = Json.dumps (errObj (run code).stderr)) ∧
    ((run code).returncode = 0 → answer_questions run code = (run code).stdout) := by
  constructor
  · intro h1 h2
    simp only [answer_questions, errObj]
    rw [if_pos (by simp [h1, h2])]
  · intro h
    simp only [answer_questions]
    rw [if_neg (by simp [h])]

/-- C10 witness: whitespace-only stdout with exit 1 yields the error
object; empty stdout with exit 0 is returned verbatim. -/
theorem C10_stdout_whitespace_vs_exit_zero_witness :
    answer_questions (fun _ => ⟨1, " \n\t", "err"⟩) "x" = Json.dumps (errObj "err") ∧
    answer_questions (fun _ => ⟨0, "", "err"⟩) "y" = "" :=
  ⟨(C10_stdout_whitespace_vs_exit_zero (fun _ => ⟨1, " \n\t", "err"⟩) "x").1 (by decide) (by rfl),
   (C10_stdout_whitespace_vs_exit_zero (fun _ => ⟨0, "", "err"⟩) "y").2 rfl⟩

end TdsAgent
